import Mathlib

/-
Verification of the CMA-ES optimizer wrapper (CMAESOptimizer.cpp) and the
optimizer test systems (OptimizerSystems.h) of the SimTKmath repository.

Numeric model: the C++ `Real`/`double` values are modelled as exact rationals
(ℚ) wherever only field arithmetic and order comparisons occur, and as real
numbers (ℝ) where the source uses transcendental functions (log, cos, sqrt).
C++ `int` is modelled as ℤ, loop indices as ℕ.

The underlying c-cmaes library (cmaes_init_para, cmaes_SamplePopulation,
cmaes_ReSampleSingle, cmaes_UpdateDistribution, cmaes_TestForTermination,
cmaes_GetPtr, ...) is part of the repository but its source is not under
src/; only the wrapper that calls it is.  Its state and entry points are
therefore modelled abstractly (structure CmaesLib below), following the
spec for the properties the wrapper relies on.
-/

namespace Spec2Proof

/-! Test optimizer systems, from src/SimTKmath/tests/OptimizerSystems.h. -/

/-- Cigtab::objectiveFunc (OptimizerSystems.h lines 49-56):
`f = 1e4 * x[0] * x[0] + 1e-4 * x[1] * x[1];` followed by the loop
`for (i = 0; i < getNumParameters(); ++i) f += x[i] * x[i];`, returning
status 0.  The loop is modelled as a left fold over the index range. -/
def cigtabObjectiveFunc (nParameters : ℕ) (x : ℕ → ℚ) : ℤ × ℚ :=
  (0, List.foldl (fun f i => f + x i * x i)
    (1e4 * x 0 * x 0 + 1e-4 * x 1 * x 1) (List.range nParameters))

/-- Rosenbrock::objectiveFunc (OptimizerSystems.h lines 125-130).  The C++
code accumulates into the output parameter `f` with `+=` without first
assigning to it, so the incoming value `f` of that parameter is part of the
result:
`for (i = 0; i < getNumParameters() - 1; ++i)
   f += 100 * pow(x[i+1] - x[i] * x[i], 2) + pow(x[i] - 1, 2);`
and it returns status 0.  (`getNumParameters()` is unsigned; we model the
systems it is instantiated with, where nParameters >= 1, via Nat
subtraction.) -/
def rosenbrockObjectiveFunc (nParameters : ℕ) (x : ℕ → ℚ) (f : ℚ) : ℤ × ℚ :=
  (0, List.foldl
    (fun f i => f + (100 * (x (i + 1) - x i * x i) ^ 2 + (x i - 1) ^ 2))
    f (List.range (nParameters - 1)))

/-- DropWave::objectiveFunc (OptimizerSystems.h lines 107-111):
`dotprod = x[0]*x[0] + x[1]*x[1];
 f = -(1 + cos(12 * sqrt(dotprod))) / (0.5 * dotprod + 2);`
returning status 0. -/
noncomputable def dropWaveObjectiveFunc (x : ℕ → ℝ) : ℤ × ℝ :=
  let dotprod := x 0 * x 0 + x 1 * x 1
  (0, -(1 + Real.cos (12 * Real.sqrt dotprod)) / (0.5 * dotprod + 2))

/-- DropWave::optimalValue (OptimizerSystems.h line 112). -/
noncomputable def dropWaveOptimalValue : ℝ := -1

/-- DropWave::optimalParameters (OptimizerSystems.h lines 113-117): the zero
vector (n = 2). -/
noncomputable def dropWaveOptimalParameters : ℕ → ℝ := fun _ => 0

/-! The CMA-ES optimizer wrapper, from
src/SimTKmath/Optimizers/src/CMAESOptimizer.cpp. -/

/-- Fatal run-level errors of the wrapper.  `SimTK_APIARGCHECK4_ALWAYS` and
`SimTK_VALUECHECK_NONNEG_ALWAYS` throw exceptions, modelled as
`Except.error`.  `fuelExhausted` is an artifact of the embedding: it marks
a run of one of the source's unbounded loops that did not finish within the
fuel given to the model (the source has no such bound). -/
inductive CmaesError where
  | infeasibleInitialPoint
  | objectiveFailure
  | valueCheckFailed
  | fuelExhausted
deriving DecidableEq

/-- The OptimizerSystem interface as the wrapper consumes it:
getNumParameters, getHasLimits, getParameterLimits, and the objective
callback (returning a status int and writing the value f). -/
structure OptimizerSystem where
  numParameters : ℕ
  hasLimits : Bool
  lowerLimits : ℕ → ℚ
  upperLimits : ℕ → ℚ
  objectiveFunc : (ℕ → ℚ) → ℤ × ℚ

/-- Modelled from the spec: the observable part of the c-cmaes state
`cmaes_t evo` (its source is not under src/).  Per spec section 3, the
Distribution State holds the offspring population and the best-ever record
(x_best, f_best); `pop i j` is coordinate j of offspring i
(`pop[i][j]` in the wrapper), `xbestever`/`fbestever` are what
`cmaes_GetPtr(&evo, "xbestever")` and `cmaes_Get(&evo, "fbestever")`
read. -/
structure Evo where
  pop : ℕ → ℕ → ℚ
  xbestever : ℕ → ℚ
  fbestever : ℚ

/-- Modelled from the spec: the c-cmaes library entry points the wrapper
calls (cmaes_init_para/cmaes_init_final, cmaes_resume_distribution,
cmaes_SamplePopulation, cmaes_ReSampleSingle, cmaes_UpdateDistribution,
cmaes_TestForTermination); their source is not under src/, so they are kept
abstract.  `cmaes_SamplePopulation` and `cmaes_ReSampleSingle` return the
population pointer of the updated state, modelled by reading `.pop` of the
returned `Evo`.  `cmaes_TestForTermination` returns a non-NULL string when
a termination criterion fired, modelled as a Bool. -/
structure CmaesLib where
  initFinal : (ℕ → ℚ) → Evo
  resumeDistribution : Evo → Evo
  samplePopulation : Evo → Evo
  reSampleSingle : Evo → ℕ → Evo
  updateDistribution : Evo → (ℕ → ℚ) → Evo
  testForTermination : Evo → Bool

/-- CMAESOptimizer::checkInitialPointIsFeasible (CMAESOptimizer.cpp lines
151-167): when the system has limits, every coordinate i < n must satisfy
`lowerLimits[i] <= x[i] && x[i] <= upperLimits[i]`, otherwise
SimTK_APIARGCHECK4_ALWAYS throws. -/
def checkInitialPointIsFeasible (sys : OptimizerSystem) (x : ℕ → ℚ) :
    Except CmaesError Unit :=
  if sys.hasLimits then
    if ∀ i, i < sys.numParameters →
        sys.lowerLimits i ≤ x i ∧ x i ≤ sys.upperLimits i then
      Except.ok ()
    else Except.error CmaesError.infeasibleInitialPoint
  else Except.ok ()

/-- The feasibility test the inner j-loop of the resampling block performs
(CMAESOptimizer.cpp lines 105-112): `feasible` stays true exactly when no
coordinate j < n has `pop[i][j] < lowerLimits[j] || pop[i][j] >
upperLimits[j]`. -/
def rowFeasible (lower upper : ℕ → ℚ) (n : ℕ) (row : ℕ → ℚ) : Bool :=
  decide (∀ j, j < n → lower j ≤ row j ∧ row j ≤ upper j)

/-- The `while (!feasible)` loop for one offspring i (CMAESOptimizer.cpp
lines 102-113): as long as some coordinate of row i is out of bounds, call
`cmaes_ReSampleSingle(&evo, i)` and re-check.  The source loop is unbounded;
the model adds fuel and returns `none` when it runs out. -/
def resampleUntilFeasible (lib : CmaesLib) (lower upper : ℕ → ℚ) (n i : ℕ) :
    ℕ → Evo → Option Evo
  | 0, evo =>
    if rowFeasible lower upper n (evo.pop i) then some evo else none
  | fuel + 1, evo =>
    if rowFeasible lower upper n (evo.pop i) then some evo
    else resampleUntilFeasible lib lower upper n i fuel (lib.reSampleSingle evo i)

/-- The outer `for (i = 0; i < lambda; i++)` of the resampling block
(CMAESOptimizer.cpp lines 101-114), processing the offspring indices in
order.  `lambda` (read through `cmaes_Get(&evo, "lambda")`) is a strategy
parameter, immutable after init per spec section 3, so the index list is
computed once. -/
def resamplePhase (lib : CmaesLib) (lower upper : ℕ → ℚ) (n fuel : ℕ) :
    List ℕ → Evo → Option Evo
  | [], evo => some evo
  | i :: rest, evo =>
    match resampleUntilFeasible lib lower upper n i fuel evo with
    | some evo2 => resamplePhase lib lower upper n fuel rest evo2
    | none => none

/-- Sampling plus the bounds block of the generation loop (CMAESOptimizer.cpp
lines 93-115): `pop = cmaes_SamplePopulation(&evo)`, then, when
`sys.getHasLimits()`, resample each offspring until feasible.  The
population this returns is exactly what the subsequent objective-evaluation
loop and `cmaes_UpdateDistribution` receive. -/
def boundedPop (lib : CmaesLib) (sys : OptimizerSystem) (lambda fuel : ℕ)
    (evo : Evo) : Except CmaesError Evo :=
  let evo2 := lib.samplePopulation evo
  if sys.hasLimits then
    match resamplePhase lib sys.lowerLimits sys.upperLimits
        sys.numParameters fuel (List.range lambda) evo2 with
    | some evo3 => Except.ok evo3
    | none => Except.error CmaesError.fuelExhausted
  else Except.ok evo2

/-- Modelled from the spec: `OptimizerRep::objectiveFuncWrapper` is declared
in the host optimizer framework, outside src/.  Per spec sections 4.5, 6 and
7 it invokes the objective callback `evaluate(n, x, isNewPoint) ->
(status, f)`; status 0 is success and a non-zero status is surfaced as a
fatal ObjectiveFailure run-level error. -/
def objectiveFuncWrapper (sys : OptimizerSystem) (x : ℕ → ℚ) :
    Except CmaesError ℚ :=
  if (sys.objectiveFunc x).1 = 0 then Except.ok (sys.objectiveFunc x).2
  else Except.error CmaesError.objectiveFailure

/-- The objective-evaluation loop (CMAESOptimizer.cpp lines 119-121):
`for (i = 0; i < lambda; i++)
   objectiveFuncWrapper(n, pop[i], true, &funvals[i], this);`
building the `funvals` array, aborting at the first failure. -/
def evalPopulation (sys : OptimizerSystem) (pop : ℕ → ℕ → ℚ) :
    List ℕ → (ℕ → ℚ) → Except CmaesError (ℕ → ℚ)
  | [], funvals => Except.ok funvals
  | i :: rest, funvals =>
    match objectiveFuncWrapper sys (pop i) with
    | Except.ok fi => evalPopulation sys pop rest (Function.update funvals i fi)
    | Except.error e => Except.error e

/-- One iteration of the generation loop (CMAESOptimizer.cpp lines 89-129):
sample, bounds-resample, evaluate the objective on the (feasible)
population, then `cmaes_UpdateDistribution(&evo, funvals)`. -/
def generation (lib : CmaesLib) (sys : OptimizerSystem) (lambda fuel : ℕ)
    (evo : Evo) : Except CmaesError Evo :=
  match boundedPop lib sys lambda fuel evo with
  | Except.error e => Except.error e
  | Except.ok evo2 =>
    match evalPopulation sys evo2.pop (List.range lambda) (fun _ => 0) with
    | Except.error e => Except.error e
    | Except.ok funvals => Except.ok (lib.updateDistribution evo2 funvals)

/-- The `while (!cmaes_TestForTermination(&evo))` generation loop
(CMAESOptimizer.cpp line 89), with fuel `gens` bounding the number of
generations the model runs (the source loop is bounded only by the
termination criteria). -/
def optLoop (lib : CmaesLib) (sys : OptimizerSystem) (lambda fuel : ℕ) :
    ℕ → Evo → Except CmaesError Evo
  | 0, evo =>
    if lib.testForTermination evo then Except.ok evo
    else Except.error CmaesError.fuelExhausted
  | gens + 1, evo =>
    if lib.testForTermination evo then Except.ok evo
    else
      match generation lib sys lambda fuel evo with
      | Except.error e => Except.error e
      | Except.ok evo2 => optLoop lib sys lambda fuel gens evo2

/-- The state entering the generation loop (CMAESOptimizer.cpp lines 66-78):
`init(evo, results)` and then, when the advanced option "resume" is set,
`cmaes_resume_distribution(&evo, "resumecmaes.dat")`. -/
def startEvo (lib : CmaesLib) (isresume : Bool) (results : ℕ → ℚ) : Evo :=
  if isresume then lib.resumeDistribution (lib.initFinal results)
  else lib.initFinal results

/-- CMAESOptimizer::optimize after the feasibility check (CMAESOptimizer.cpp
lines 64-148): run the generation loop, then copy
`cmaes_GetPtr(&evo, "xbestever")` into `results[i]` for i = 0..n-1 (entries
at or beyond n are untouched) and return `cmaes_Get(&evo, "fbestever")`. -/
def optimizeBody (lib : CmaesLib) (sys : OptimizerSystem) (isresume : Bool)
    (lambda fuel gens : ℕ) (results : ℕ → ℚ) :
    Except CmaesError ((ℕ → ℚ) × ℚ) :=
  match optLoop lib sys lambda fuel gens (startEvo lib isresume results) with
  | Except.error e => Except.error e
  | Except.ok evo =>
    Except.ok
      (fun i => if i < sys.numParameters then evo.xbestever i else results i,
       evo.fbestever)

/-- CMAESOptimizer::optimize (CMAESOptimizer.cpp lines 50-149): first
`checkInitialPointIsFeasible(results)` (line 62) — its exception aborts the
run before `init(evo, results)` builds any CMA-ES state — then the body. -/
def optimize (lib : CmaesLib) (sys : OptimizerSystem) (isresume : Bool)
    (lambda fuel gens : ℕ) (results : ℕ → ℚ) :
    Except CmaesError ((ℕ → ℚ) × ℚ) :=
  match checkInitialPointIsFeasible sys results with
  | Except.error e => Except.error e
  | Except.ok _ => optimizeBody lib sys isresume lambda fuel gens results

/-! CMAESOptimizer::init (CMAESOptimizer.cpp lines 169-227) and
CMAESOptimizer::processSettingsAfterCMAESInit (lines 229-257), option
handling.  An advanced option the user did not set is modelled as `none`;
`getAdvancedIntOption`/`getAdvancedRealOption` leave the local variable's
initial value in place in that case. -/

/-- A C cast `int(x)` of a double: truncation toward zero. -/
noncomputable def cint (x : ℝ) : ℤ := if 0 ≤ x then ⌊x⌋ else ⌈x⌉

/-- The lambda block of init (CMAESOptimizer.cpp lines 179-184):
`int numsamples = 0; getAdvancedIntOption("lambda", numsamples);
 if (numsamples == 0) numsamples = 4 + int(3 * std::log((double)n));`. -/
noncomputable def lambdaUsed (lambdaOpt : Option ℤ) (n : ℕ) : ℤ :=
  let numsamples := lambdaOpt.getD 0
  if numsamples = 0 then 4 + cint (3 * Real.log n) else numsamples

/-- The sigma block of init (CMAESOptimizer.cpp lines 189-193):
`double stepsize = 0; getAdvancedRealOption("sigma", stepsize);
 if (stepsize == 0.0) stepsize = 0.1;`. -/
def stepsizeUsed (sigmaOpt : Option ℚ) : ℚ :=
  let stepsize := sigmaOpt.getD 0
  if stepsize = 0 then 0.1 else stepsize

/-- The stddev array passed to cmaes_init_para (CMAESOptimizer.cpp lines
194-197): every entry holds the step size. -/
def stepsizeArray (sigmaOpt : Option ℚ) : ℕ → ℚ := fun _ => stepsizeUsed sigmaOpt

/-- The fields of `evo.sp` (c-cmaes readpara_t) that
processSettingsAfterCMAESInit writes. -/
structure StrategyParams where
  stopMaxIter : ℤ
  stopTolFun : ℚ
  stopMaxFunEvals : ℤ
  updateCmodeMaxtime : ℚ

/-- The maxtime block (CMAESOptimizer.cpp lines 252-256): when the advanced
option is present its value is assigned to `evo.sp.updateCmode.maxtime`,
with no validation of any kind. -/
def applyMaxtime (maxtimeOpt : Option ℚ) (sp : StrategyParams) :
    StrategyParams :=
  match maxtimeOpt with
  | some m => { sp with updateCmodeMaxtime := m }
  | none => sp

/-- CMAESOptimizer::processSettingsAfterCMAESInit (CMAESOptimizer.cpp lines
229-257): writes stopMaxIter and stopTolFun from the protected members, then
stopMaxFunEvals when the option is set (rejecting negative values via
SimTK_VALUECHECK_NONNEG_ALWAYS), then the maxtime block. -/
def processSettingsAfterCMAESInit (maxIterations : ℤ)
    (convergenceTolerance : ℚ) (stopMaxFunEvalsOpt : Option ℤ)
    (maxtimeOpt : Option ℚ) (sp : StrategyParams) :
    Except CmaesError StrategyParams :=
  let sp1 := { sp with stopMaxIter := maxIterations,
                       stopTolFun := convergenceTolerance }
  match stopMaxFunEvalsOpt with
  | some v =>
    if v < 0 then Except.error CmaesError.valueCheckFailed
    else Except.ok (applyMaxtime maxtimeOpt { sp1 with stopMaxFunEvals := v })
  | none => Except.ok (applyMaxtime maxtimeOpt sp1)

/-! Concrete instances used by the witness theorems. -/

/-- A concrete Evo state: zero population, zero best-ever record. -/
def trivEvo : Evo :=
  { pop := fun _ _ => 0, xbestever := fun _ => 0, fbestever := 0 }

/-- A concrete library instance whose operations keep the state unchanged
and whose termination test always fires. -/
def trivLib : CmaesLib :=
  { initFinal := fun _ => trivEvo
    resumeDistribution := id
    samplePopulation := id
    reSampleSingle := fun e _ => e
    updateDistribution := fun e _ => e
    testForTermination := fun _ => true }

/-- A concrete 1-parameter system with box limits [-1, 1]. -/
def boundedSys : OptimizerSystem :=
  { numParameters := 1
    hasLimits := true
    lowerLimits := fun _ => -1
    upperLimits := fun _ => 1
    objectiveFunc := fun x => (0, x 0) }

/-- A concrete 1-parameter system without limits. -/
def freeSys : OptimizerSystem :=
  { numParameters := 1
    hasLimits := false
    lowerLimits := fun _ => 0
    upperLimits := fun _ => 0
    objectiveFunc := fun x => (0, x 0) }

/-- A concrete 1-parameter system whose objective callback always fails
(returns status 1). -/
def failSys : OptimizerSystem :=
  { numParameters := 1
    hasLimits := false
    lowerLimits := fun _ => 0
    upperLimits := fun _ => 0
    objectiveFunc := fun _ => (1, 0) }

/-- A concrete strategy-parameter record. -/
def sp0 : StrategyParams :=
  { stopMaxIter := 0, stopTolFun := 0, stopMaxFunEvals := 0,
    updateCmodeMaxtime := 0 }

/-! Theorems. -/

/-- Accumulating left folds over an index range sum the per-index terms. -/
theorem foldl_add_range (g : ℕ → ℚ) (a : ℚ) (n : ℕ) :
    List.foldl (fun acc i => acc + g i) a (List.range n) =
      a + ∑ i ∈ Finset.range n, g i := by
  induction n with
  | zero => simp
  | succ m ih =>
    rw [List.range_succ, List.foldl_append, ih, Finset.sum_range_succ]
    simp [add_assoc]

/-- Claim C8: for every input vector x of dimension n, Cigtab::objectiveFunc
sets the output f to 1e4*x_0^2 + 1e-4*x_1^2 + (sum over i = 0..n-1 of
x_i^2) — the sum counting x_0 and x_1 again — and returns status 0. -/
theorem cigtab_objectiveFunc_eq (n : ℕ) (x : ℕ → ℚ) :
    cigtabObjectiveFunc n x =
      (0, 1e4 * x 0 ^ 2 + 1e-4 * x 1 ^ 2 + ∑ i ∈ Finset.range n, x i ^ 2) := by
  unfold cigtabObjectiveFunc
  rw [show (fun (f : ℚ) (i : ℕ) => f + x i * x i) =
      (fun (acc : ℚ) (i : ℕ) => acc + (fun j => x j ^ 2) i) by
    funext acc i; ring]
  rw [foldl_add_range]
  ring_nf

/-- Claim C9: Rosenbrock::objectiveFunc accumulates into its output
parameter with += and never initializes it, so for incoming value f0 the
result is f0 plus the Rosenbrock sum, returning status 0; it equals the
Rosenbrock function itself exactly when the caller pre-initializes f0 to
0. -/
theorem rosenbrock_accumulates (n : ℕ) (x : ℕ → ℚ) (f0 : ℚ) :
    rosenbrockObjectiveFunc n x f0 =
      (0, f0 + ∑ i ∈ Finset.range (n - 1),
        (100 * (x (i + 1) - x i ^ 2) ^ 2 + (x i - 1) ^ 2)) ∧
    ((rosenbrockObjectiveFunc n x f0).2 =
        ∑ i ∈ Finset.range (n - 1),
          (100 * (x (i + 1) - x i ^ 2) ^ 2 + (x i - 1) ^ 2) ↔ f0 = 0) := by
  have key : rosenbrockObjectiveFunc n x f0 =
      (0, f0 + ∑ i ∈ Finset.range (n - 1),
        (100 * (x (i + 1) - x i ^ 2) ^ 2 + (x i - 1) ^ 2)) := by
    unfold rosenbrockObjectiveFunc
    rw [show (fun (f : ℚ) (i : ℕ) =>
          f + (100 * (x (i + 1) - x i * x i) ^ 2 + (x i - 1) ^ 2)) =
        (fun (acc : ℚ) (i : ℕ) => acc +
          (fun j => 100 * (x (j + 1) - x j ^ 2) ^ 2 + (x j - 1) ^ 2) i) by
      funext acc i; ring]
    rw [foldl_add_range]
  refine ⟨key, ?_⟩
  rw [key]
  simp [add_left_eq_self]

/-- Claim C10: DropWave::objectiveFunc is total: its denominator
0.5*(x_0^2 + x_1^2) + 2 is at least 2 (hence nonzero) for every real input,
the returned status is always 0, and at the optimal parameters (0,0) it
produces exactly the optimal value -1. -/
theorem dropWave_total_and_optimal :
    (∀ x : ℕ → ℝ,
      2 ≤ 0.5 * (x 0 * x 0 + x 1 * x 1) + 2 ∧
      0.5 * (x 0 * x 0 + x 1 * x 1) + 2 ≠ 0 ∧
      (dropWaveObjectiveFunc x).1 = 0) ∧
    dropWaveObjectiveFunc dropWaveOptimalParameters =
      (0, dropWaveOptimalValue) := by
  constructor
  · intro x
    refine ⟨by nlinarith [mul_self_nonneg (x 0), mul_self_nonneg (x 1)],
      by nlinarith [mul_self_nonneg (x 0), mul_self_nonneg (x 1)], rfl⟩
  · unfold dropWaveObjectiveFunc dropWaveOptimalParameters dropWaveOptimalValue
    norm_num

/-- Claim C2 counterexample: with the sigma option unspecified the step size
the code uses is 0.1, which is not the claimed 0.3. -/
theorem sigma_default_counterexample :
    stepsizeUsed none = 0.1 ∧ (0.1 : ℚ) ≠ 0.3 := by
  constructor
  · rfl
  · norm_num

/-- Claim C2 (amended): if the user does not specify the sigma option, or
specifies it as 0, the initial step size used for the run — every entry of
the stddev array handed to cmaes_init_para — is the legacy default 0.1. -/
theorem sigma_default_is_legacy :
    stepsizeUsed none = 0.1 ∧ stepsizeUsed (some 0) = 0.1 ∧
    ∀ i, stepsizeArray none i = 0.1 ∧ stepsizeArray (some 0) i = 0.1 := by
  exact ⟨rfl, rfl, fun i => ⟨rfl, rfl⟩⟩

/-- Claim C5 counterexample: the option value 2 lies outside (0,1], yet
processSettingsAfterCMAESInit succeeds and stores it, instead of failing. -/
theorem maxtime_unvalidated_counterexample :
    processSettingsAfterCMAESInit 100 (1 / 1000) none (some 2) sp0 =
      Except.ok { stopMaxIter := 100, stopTolFun := 1 / 1000,
                  stopMaxFunEvals := 0, updateCmodeMaxtime := 2 } ∧
    ¬ ((0 : ℚ) < 2 ∧ (2 : ℚ) ≤ 1) := by
  exact ⟨rfl, by norm_num⟩

/-- Claim C5 (amended): a user-supplied maxTimeFractionForEigendecomposition
value is assigned to evo.sp.updateCmode.maxtime without any range
validation; no value — in particular none outside (0,1] — causes a failure
at initialization (only stopMaxFunEvals is range-checked there). -/
theorem maxtime_unvalidated (maxIterations : ℤ) (convergenceTolerance : ℚ)
    (v : ℚ) (sp : StrategyParams) :
    processSettingsAfterCMAESInit maxIterations convergenceTolerance none
        (some v) sp =
      Except.ok { stopMaxIter := maxIterations,
                  stopTolFun := convergenceTolerance,
                  stopMaxFunEvals := sp.stopMaxFunEvals,
                  updateCmodeMaxtime := v } := rfl

/-- Claim C6: if the user does not specify the lambda option (or specifies
it as 0), the population size used is floor(4 + 3*ln n), n >= 2 being the
problem dimension.  (The code computes 4 + int(3*log n); since log n >= 0
the truncation equals the floor, and adding the integer 4 commutes with the
floor.) -/
theorem lambda_default_floor (n : ℕ) (hn : 2 ≤ n) :
    lambdaUsed none n = ⌊(4 : ℝ) + 3 * Real.log n⌋ ∧
    lambdaUsed (some 0) n = ⌊(4 : ℝ) + 3 * Real.log n⌋ := by
  have h1 : (1 : ℝ) ≤ n := by exact_mod_cast Nat.one_le_of_lt hn
  have hlog : 0 ≤ 3 * Real.log n := by
    have := Real.log_nonneg h1
    linarith
  have hcint : cint (3 * Real.log n) = ⌊3 * Real.log n⌋ := by
    unfold cint
    rw [if_pos hlog]
  have hfloor : ⌊(4 : ℝ) + 3 * Real.log n⌋ = 4 + ⌊3 * Real.log n⌋ := by
    rw [show ((4 : ℝ)) = (((4 : ℤ) : ℝ)) by norm_num, Int.floor_int_add]
  constructor
  · unfold lambdaUsed
    rw [hfloor]
    simp [hcint]
  · unfold lambdaUsed
    rw [hfloor]
    simp [hcint]

/-- Claim C6 witness: the default population size at dimension n = 2. -/
theorem lambda_default_floor_witness :
    lambdaUsed none 2 = ⌊(4 : ℝ) + 3 * Real.log 2⌋ := by
  have h := (lambda_default_floor 2 (by norm_num)).1
  exact_mod_cast h

/-- When the per-offspring resample loop returns, the offspring's row
passes the feasibility test. -/
theorem resampleUntilFeasible_row (lib : CmaesLib) (lower upper : ℕ → ℚ)
    (n i : ℕ) :
    ∀ (fuel : ℕ) (evo evo2 : Evo),
      resampleUntilFeasible lib lower upper n i fuel evo = some evo2 →
      rowFeasible lower upper n (evo2.pop i) = true := by
  intro fuel
  induction fuel with
  | zero =>
    intro evo evo2 h
    by_cases hf : rowFeasible lower upper n (evo.pop i) = true
    · simp only [resampleUntilFeasible, hf, if_true, Option.some.injEq] at h
      rw [← h]
      exact hf
    · simp [resampleUntilFeasible, hf] at h
  | succ m ih =>
    intro evo evo2 h
    by_cases hf : rowFeasible lower upper n (evo.pop i) = true
    · simp only [resampleUntilFeasible, hf, if_true, Option.some.injEq] at h
      rw [← h]
      exact hf
    · simp only [resampleUntilFeasible, hf, if_false, Bool.false_eq_true] at h
      exact ih _ _ h

/-- The per-offspring resample loop only rewrites the row it was called on:
rows of other offspring are exactly the incoming ones.  Uses the locality of
cmaes_ReSampleSingle (spec section 4.4: resampleOne redraws x_i in place). -/
theorem resampleUntilFeasible_other (lib : CmaesLib)
    (hloc : ∀ e i k, k ≠ i → (lib.reSampleSingle e i).pop k = e.pop k)
    (lower upper : ℕ → ℚ) (n i : ℕ) :
    ∀ (fuel : ℕ) (evo evo2 : Evo),
      resampleUntilFeasible lib lower upper n i fuel evo = some evo2 →
      ∀ k, k ≠ i → evo2.pop k = evo.pop k := by
  intro fuel
  induction fuel with
  | zero =>
    intro evo evo2 h k hk
    by_cases hf : rowFeasible lower upper n (evo.pop i) = true
    · simp only [resampleUntilFeasible, hf, if_true, Option.some.injEq] at h
      rw [← h]
    · simp [resampleUntilFeasible, hf] at h
  | succ m ih =>
    intro evo evo2 h k hk
    by_cases hf : rowFeasible lower upper n (evo.pop i) = true
    · simp only [resampleUntilFeasible, hf, if_true, Option.some.injEq] at h
      rw [← h]
    · simp only [resampleUntilFeasible, hf, if_false, Bool.false_eq_true] at h
      rw [ih _ _ h k hk, hloc evo i k hk]

/-- After the resampling pass over a list of offspring indices, every
processed offspring is feasible and every other row is untouched. -/
theorem resamplePhase_feasible (lib : CmaesLib)
    (hloc : ∀ e i k, k ≠ i → (lib.reSampleSingle e i).pop k = e.pop k)
    (lower upper : ℕ → ℚ) (n fuel : ℕ) :
    ∀ (l : List ℕ) (evo evo2 : Evo),
      resamplePhase lib lower upper n fuel l evo = some evo2 →
      (∀ i ∈ l, rowFeasible lower upper n (evo2.pop i) = true) ∧
      (∀ k, k ∉ l → evo2.pop k = evo.pop k) := by
  intro l
  induction l with
  | nil =>
    intro evo evo2 h
    simp only [resamplePhase, Option.some.injEq] at h
    rw [← h]
    exact ⟨by simp, fun k _ => rfl⟩
  | cons i rest ih =>
    intro evo evo2 h
    unfold resamplePhase at h
    cases hru : resampleUntilFeasible lib lower upper n i fuel evo with
    | none => rw [hru] at h; cases h
    | some evo1 =>
      rw [hru] at h
      obtain ⟨h1, h2⟩ := ih evo1 evo2 h
      refine ⟨?_, ?_⟩
      · intro j hj
        rcases List.mem_cons.mp hj with rfl | hjr
        · by_cases hjrest : j ∈ rest
          · exact h1 j hjrest
          · rw [h2 j hjrest]
            exact resampleUntilFeasible_row lib lower upper n j fuel evo evo1 hru
        · exact h1 j hjr
      · intro k hk
        have hkr : k ∉ rest := fun hh => hk (List.mem_cons_of_mem _ hh)
        have hki : k ≠ i := fun he => hk (he ▸ List.mem_cons_self _ _)
        rw [h2 k hkr]
        exact resampleUntilFeasible_other lib hloc lower upper n i fuel
          evo evo1 hru k hki

/-- Claim C1: when box limits are present, every offspring of the population
produced by the sampling-plus-resampling block — the exact population on
which `generation` then runs the objective evaluation and
cmaes_UpdateDistribution — satisfies L_j <= x_j <= U_j for every coordinate
j < n.  cmaes_ReSampleSingle is abstract here; the hypothesis `hloc` is its
spec-section-4.4 behavior of redrawing only offspring i. -/
theorem bounds_resample_feasible (lib : CmaesLib) (sys : OptimizerSystem)
    (lambda fuel : ℕ) (evo evo2 : Evo)
    (hloc : ∀ e i k, k ≠ i → (lib.reSampleSingle e i).pop k = e.pop k)
    (hlim : sys.hasLimits = true)
    (h : boundedPop lib sys lambda fuel evo = Except.ok evo2) :
    ∀ i, i < lambda → ∀ j, j < sys.numParameters →
      sys.lowerLimits j ≤ evo2.pop i j ∧ evo2.pop i j ≤ sys.upperLimits j := by
  intro i hi j hj
  unfold boundedPop at h
  rw [hlim] at h
  simp only [if_true] at h
  cases hrp : resamplePhase lib sys.lowerLimits sys.upperLimits
      sys.numParameters fuel (List.range lambda) (lib.samplePopulation evo) with
  | none => rw [hrp] at h; cases h
  | some evo3 =>
    rw [hrp] at h
    have hev : evo3 = evo2 := by
      simpa using h
    rw [hev] at hrp
    obtain ⟨h1, _⟩ := resamplePhase_feasible lib hloc sys.lowerLimits
      sys.upperLimits sys.numParameters fuel (List.range lambda)
      (lib.samplePopulation evo) evo2 hrp
    have hfeas := h1 i (List.mem_range.mpr hi)
    unfold rowFeasible at hfeas
    exact of_decide_eq_true hfeas j hj

/-- Claim C1 witness: a concrete bounded run in which the kept population
satisfies the limits. -/
theorem bounds_resample_feasible_witness :
    boundedSys.lowerLimits 0 ≤ trivEvo.pop 0 0 ∧
    trivEvo.pop 0 0 ≤ boundedSys.upperLimits 0 :=
  bounds_resample_feasible trivLib boundedSys 1 1 trivEvo trivEvo
    (fun _ _ _ _ => rfl) rfl rfl 0 (by decide) 0 (by decide)

/-- The objective-evaluation loop fails with ObjectiveFailure as soon as the
callback returns a non-zero status for some offspring in the list. -/
theorem evalPopulation_fails (sys : OptimizerSystem) (pop : ℕ → ℕ → ℚ) :
    ∀ (l : List ℕ) (funvals : ℕ → ℚ),
      (∃ i ∈ l, (sys.objectiveFunc (pop i)).1 ≠ 0) →
      evalPopulation sys pop l funvals =
        Except.error CmaesError.objectiveFailure := by
  intro l
  induction l with
  | nil =>
    intro funvals h
    obtain ⟨i, hi, _⟩ := h
    cases hi
  | cons i rest ih =>
    intro funvals h
    by_cases hs : (sys.objectiveFunc (pop i)).1 = 0
    · obtain ⟨j, hj, hne⟩ := h
      rcases List.mem_cons.mp hj with rfl | hjr
      · exact absurd hs hne
      · unfold evalPopulation objectiveFuncWrapper
        rw [if_pos hs]
        exact ih _ ⟨j, hjr, hne⟩
    · unfold evalPopulation objectiveFuncWrapper
      rw [if_neg hs]

/-- Claim C3: if the objective callback signals failure (non-zero status)
for any offspring of the population the generation evaluates, the whole
generation — and with it the run — aborts with the fatal ObjectiveFailure
error; cmaes_UpdateDistribution never produces the result. -/
theorem objective_failure_aborts (lib : CmaesLib) (sys : OptimizerSystem)
    (lambda fuel : ℕ) (evo evo2 : Evo)
    (hb : boundedPop lib sys lambda fuel evo = Except.ok evo2)
    (hfail : ∃ i, i < lambda ∧ (sys.objectiveFunc (evo2.pop i)).1 ≠ 0) :
    generation lib sys lambda fuel evo =
      Except.error CmaesError.objectiveFailure ∧
    ∀ gens, lib.testForTermination evo = false →
      optLoop lib sys lambda fuel (gens + 1) evo =
        Except.error CmaesError.objectiveFailure := by
  obtain ⟨i, hi, hne⟩ := hfail
  have hgen : generation lib sys lambda fuel evo =
      Except.error CmaesError.objectiveFailure := by
    unfold generation
    rw [hb]
    show (match evalPopulation sys evo2.pop (List.range lambda) (fun _ => 0) with
      | Except.error e => Except.error e
      | Except.ok funvals => Except.ok (lib.updateDistribution evo2 funvals)) =
      Except.error CmaesError.objectiveFailure
    rw [evalPopulation_fails sys evo2.pop (List.range lambda) (fun _ => 0)
      ⟨i, List.mem_range.mpr hi, hne⟩]
  refine ⟨hgen, ?_⟩
  intro gens ht
  unfold optLoop
  rw [ht, if_neg Bool.false_ne_true, hgen]

/-- Claim C3 witness: a concrete run whose callback always fails aborts the
generation with ObjectiveFailure. -/
theorem objective_failure_aborts_witness :
    generation trivLib failSys 1 1 trivEvo =
      Except.error CmaesError.objectiveFailure :=
  (objective_failure_aborts trivLib failSys 1 1 trivEvo trivEvo rfl
    ⟨0, by decide, by decide⟩).1

/-- Claim C4: checkInitialPointIsFeasible rejects the initial point exactly
when limits are present and some coordinate lies strictly outside them, and
whenever it rejects, optimize aborts with InfeasibleInitialPoint — for every
library instance, so in particular before and independently of any CMA-ES
state initialization. -/
theorem infeasible_initial_point (sys : OptimizerSystem) (x : ℕ → ℚ) :
    (checkInitialPointIsFeasible sys x =
        Except.error CmaesError.infeasibleInitialPoint ↔
      sys.hasLimits = true ∧ ∃ i, i < sys.numParameters ∧
        (x i < sys.lowerLimits i ∨ sys.upperLimits i < x i)) ∧
    (∀ lib isresume lambda fuel gens,
      checkInitialPointIsFeasible sys x =
          Except.error CmaesError.infeasibleInitialPoint →
      optimize lib sys isresume lambda fuel gens x =
        Except.error CmaesError.infeasibleInitialPoint) := by
  constructor
  · unfold checkInitialPointIsFeasible
    by_cases hl : sys.hasLimits = true
    · rw [if_pos hl]
      by_cases hc : ∀ i, i < sys.numParameters →
          sys.lowerLimits i ≤ x i ∧ x i ≤ sys.upperLimits i
      · rw [if_pos hc]
        constructor
        · intro h; cases h
        · rintro ⟨-, i, hi, hviol⟩
          obtain ⟨h1, h2⟩ := hc i hi
          rcases hviol with h3 | h3
          · exact absurd h1 (not_le.mpr h3)
          · exact absurd h2 (not_le.mpr h3)
      · rw [if_neg hc]
        constructor
        · intro _
          refine ⟨hl, ?_⟩
          push_neg at hc
          obtain ⟨i, hi, hv⟩ := hc
          refine ⟨i, hi, ?_⟩
          by_cases h1 : sys.lowerLimits i ≤ x i
          · exact Or.inr (hv h1)
          · exact Or.inl (lt_of_not_le h1)
        · intro _; rfl
    · rw [if_neg hl]
      constructor
      · intro h; cases h
      · rintro ⟨hlt, -⟩
        exact absurd hlt hl
  · intro lib isresume lambda fuel gens h
    unfold optimize
    rw [h]

/-- Claim C4 witness: initial point 2 violates the limits [-1,1] of a
concrete 1-dimensional system and optimize aborts. -/
theorem infeasible_initial_point_witness :
    optimize trivLib boundedSys false 1 1 1 (fun _ => 2) =
      Except.error CmaesError.infeasibleInitialPoint :=
  (infeasible_initial_point boundedSys (fun _ => 2)).2 trivLib false 1 1 1 rfl

/-- Claim C7: when the feasibility check passes and the generation loop
terminates with final state evo, optimize returns fbestever as its value
and a results vector whose entries below n all hold xbestever. -/
theorem optimize_returns_bestever (lib : CmaesLib) (sys : OptimizerSystem)
    (isresume : Bool) (lambda fuel gens : ℕ) (results : ℕ → ℚ) (evo : Evo)
    (hchk : checkInitialPointIsFeasible sys results = Except.ok ())
    (hloop : optLoop lib sys lambda fuel gens
        (startEvo lib isresume results) = Except.ok evo) :
    ∃ r, optimize lib sys isresume lambda fuel gens results =
        Except.ok (r, evo.fbestever) ∧
      ∀ i, i < sys.numParameters → r i = evo.xbestever i := by
  refine ⟨fun i => if i < sys.numParameters then evo.xbestever i else results i,
    ?_, ?_⟩
  · unfold optimize optimizeBody
    rw [hchk, hloop]
  · intro i hi
    simp [hi]

/-- Claim C7 witness: a concrete immediately-terminating run returns the
best-ever record of the final state. -/
theorem optimize_returns_bestever_witness :
    ∃ r, optimize trivLib freeSys false 1 1 1 (fun _ => 0) =
        Except.ok (r, trivEvo.fbestever) ∧
      ∀ i, i < freeSys.numParameters → r i = trivEvo.xbestever i :=
  optimize_returns_bestever trivLib freeSys false 1 1 1 (fun _ => 0)
    trivEvo rfl rfl

end Spec2Proof
